import Mathlib

/-
Verification of the multibody-plant contact pipeline
(src/multibody/multibody_tree/multibody_plant/multibody_plant.cc).

The development shallowly embeds the plant code over the real numbers:
vectors in world coordinates are functions Fin 3 → ℝ, matrices are
Mathlib matrices over ℝ, the multibody tree / geometry engine / implicit
Stribeck solver are explicit black-box collaborators (structure fields),
exactly as the plant treats them, and fallible C++ methods (throwing
std::logic_error) return Except String values.
-/

set_option maxHeartbeats 1000000

noncomputable section

namespace DrakeMultibodyPlant

open Matrix

/-- World-frame 3-vectors (Eigen Vector3). -/
abbrev V3 := Fin 3 → ℝ

/-- Cross product of 3-vectors, written cyclically: component i is
a(i+1)*b(i+2) - a(i+2)*b(i+1) over Fin 3 arithmetic. -/
def cross3 (a b : V3) : V3 := fun i =>
  a (i + 1) * b (i + 2) - a (i + 2) * b (i + 1)

/-- A spatial force (rotational torque, translational force) expressed in a
frame, as in drake::multibody::SpatialForce. -/
abbrev SpF := V3 × V3

/-- SpatialForce::Shift(p_BpBq): the application point moves from Bp to Bq,
the force is unchanged and the torque becomes tau - p_BpBq × f. -/
def shiftSpatialForce (F : SpF) (p : V3) : SpF :=
  (fun k => F.1 k - cross3 p F.2 k, F.2)

/-- A spatial velocity (angular, translational), as in
drake::multibody::SpatialVelocity. -/
structure SpatialVelocity where
  rot : V3
  trans : V3

/-- SpatialVelocity::Shift(p).translational(): velocity of the point displaced
by p from the measured point: v + ω × p. -/
def SpatialVelocity.shiftTranslational (V : SpatialVelocity) (p : V3) : V3 :=
  fun k => V.trans k + cross3 V.rot p k

/-- drake::multibody::CoulombFriction: a static and a dynamic coefficient. -/
structure CoulombFriction where
  static_friction : ℝ
  dynamic_friction : ℝ

/-- StribeckModel::step5 (multibody_plant.cc:1374-1379):
x3 * (10 + x * (6 x - 15)), i.e. 10x³ - 15x⁴ + 6x⁵. -/
def step5 (x : ℝ) : ℝ :=
  let x3 := x * x * x
  x3 * (10 + x * (6 * x - 15))

/-- StribeckModel::ComputeFrictionCoefficient (multibody_plant.cc:1357-1372).
The model stores the reciprocal of the stiction tolerance
(inv_v_stiction_tolerance_); v = speed * inv_v_stiction_tolerance. -/
def ComputeFrictionCoefficient (inv_v_stiction_tolerance : ℝ)
    (speed_BcAc : ℝ) (friction : CoulombFriction) : ℝ :=
  let mu_d := friction.dynamic_friction
  let mu_s := friction.static_friction
  let v := speed_BcAc * inv_v_stiction_tolerance
  if v ≥ 3 then mu_d
  else if v ≥ 1 then mu_s - (mu_s - mu_d) * step5 ((v - 1) / 2)
  else mu_s * step5 v

/-- step5 together with its DRAKE_ASSERT(0 <= x && x <= 1): none when the
assertion would fail. -/
def step5Checked (x : ℝ) : Option ℝ :=
  if 0 ≤ x ∧ x ≤ 1 then some (step5 x) else none

/-- ComputeFrictionCoefficient with the step5 assertion kept live: returns
none exactly when some evaluation of step5 would trip its assertion. -/
def ComputeFrictionCoefficientChecked (inv_v_stiction_tolerance : ℝ)
    (speed_BcAc : ℝ) (friction : CoulombFriction) : Option ℝ :=
  let mu_d := friction.dynamic_friction
  let mu_s := friction.static_friction
  let v := speed_BcAc * inv_v_stiction_tolerance
  if v ≥ 3 then some mu_d
  else if v ≥ 1 then
    (step5Checked ((v - 1) / 2)).map (fun s => mu_s - (mu_s - mu_d) * s)
  else (step5Checked v).map (fun s => mu_s * s)

/-- Modelled from the spec: CalcContactFrictionFromSurfaceProperties is
declared in coulomb_friction.h, which is not among the sources; spec §4.1
defines the combined friction of a pair as the harmonic mean of the two
static and of the two dynamic coefficients, zero when the sum is zero. -/
def CalcContactFrictionFromSurfaceProperties (a b : CoulombFriction) :
    CoulombFriction where
  static_friction :=
    if a.static_friction + b.static_friction = 0 then 0
    else 2 * a.static_friction * b.static_friction
      / (a.static_friction + b.static_friction)
  dynamic_friction :=
    if a.dynamic_friction + b.dynamic_friction = 0 then 0
    else 2 * a.dynamic_friction * b.dynamic_friction
      / (a.dynamic_friction + b.dynamic_friction)

/-- The penalty-method parameter triple stored on the plant
(penalty_method_contact_parameters_). -/
structure PenaltyMethodContactParameters where
  stiffness : ℝ
  damping : ℝ
  time_scale : ℝ

/-- The parameter computation of set_penetration_allowance
(multibody_plant.cc:467-523): g is the norm of the configured gravity
vector, 9.81 by default; mass is the running maximum of the bodies
default masses starting from 0 (every body, the world included);
stiffness = mass*g/δ; time_scale = 1/sqrt(stiffness/mass);
damping = damping_ratio * time_scale/δ with damping_ratio = 1. -/
def CalcPenetrationAllowanceParameters (gravity : Option V3)
    (bodyMasses : List ℝ) (penetration_allowance : ℝ) :
    PenaltyMethodContactParameters :=
  let g : ℝ := match gravity with
    | some gv => Real.sqrt (gv ⬝ᵥ gv)
    | none => 9.81
  let mass : ℝ := bodyMasses.foldl (fun m bm => max m bm) 0
  let stiffness := mass * g / penetration_allowance
  let omega := Real.sqrt (stiffness / mass)
  let time_scale := 1 / omega
  let damping := 1 * time_scale / penetration_allowance
  ⟨stiffness, damping, time_scale⟩

/-- A penetration point pair as produced by the geometry engine
(geometry::PenetrationAsPointPair). -/
structure PointPair where
  id_A : ℕ
  id_B : ℕ
  p_WCa : V3
  p_WCb : V3
  nhat_BA_W : V3
  depth : ℝ

instance : Inhabited PointPair :=
  ⟨⟨0, 0, fun _ => 0, fun _ => 0, fun _ => 0, 0⟩⟩

/-- The plant's own mutable data: lifecycle flags, the geometry registry
maps, the penalty and Stribeck parameters, and the port indices. The
body-to-node numbering (node_index) belongs to the tree topology; it is
kept here because the plant reads it through get_body(i).node_index().
Body index 0 is the world. -/
structure Plant where
  finalized : Bool
  isDiscrete : Bool
  sourceRegistered : Bool
  numCollisionGeometries : ℕ
  bodyMasses : List ℝ
  gravity : Option V3
  penaltyParameters : PenaltyMethodContactParameters
  invStictionTolerance : ℝ
  bodyIndexOf : ℕ → ℕ
  collisionIndexOf : ℕ → ℕ
  defaultFriction : ℕ → CoulombFriction
  nodeIndex : ℕ → ℕ
  nextGeometryId : ℕ
  visualGeometries : List (ℕ × ℕ)
  collisionGeometries : List (ℕ × ℕ)
  continuousStateOutputPort : ℕ
  contactResultsPort : ℕ

/-- The message built by ThrowIfNotFinalized (multibody_plant.cc:1348-1355);
the quote characters around the method name are omitted. -/
def preFinalizeMessage (source_method : String) : String :=
  "Pre-finalize calls to " ++ source_method ++
    "() are not allowed; you must call Finalize() first."

/-- The message built by ThrowIfFinalized (multibody_plant.cc:1339-1346);
the quote characters around the method name are omitted. -/
def postFinalizeMessage (source_method : String) : String :=
  "Post-finalize calls to " ++ source_method ++
    "() are not allowed; calls to this method must happen before Finalize()."

/-- ThrowIfFinalized: errors when the plant is already finalized. -/
def ThrowIfFinalized (pl : Plant) (source_method : String) :
    Except String Unit :=
  if pl.finalized then Except.error (postFinalizeMessage source_method)
  else Except.ok ()

/-- ThrowIfNotFinalized: errors when the plant is not yet finalized. -/
def ThrowIfNotFinalized (pl : Plant) (source_method : String) :
    Except String Unit :=
  if pl.finalized then Except.ok ()
  else Except.error (preFinalizeMessage source_method)

/-- RegisterVisualGeometry (multibody_plant.cc:83-115). The scene-graph
pointer and identity checks are carried as booleans; on success the
geometry is assigned the next id and recorded against the body. An error
outcome produces no new plant, i.e. the plant state is unchanged. -/
def Plant.RegisterVisualGeometry (pl : Plant) (body : ℕ)
    (sceneGraphNonNull sameSceneGraph : Bool) : Except String (Plant × ℕ) :=
  match ThrowIfFinalized pl "RegisterVisualGeometry" with
  | Except.error e => Except.error e
  | Except.ok _ =>
    if !sceneGraphNonNull then
      Except.error "DRAKE_THROW_UNLESS failed: scene_graph is nullptr"
    else if !pl.sourceRegistered then
      Except.error "DRAKE_THROW_UNLESS failed: geometry source is not registered"
    else if !sameSceneGraph then
      Except.error "Geometry registration calls must be performed on the SAME instance of SceneGraph used on the first call to RegisterAsSourceForSceneGraph()"
    else
      let id := pl.nextGeometryId
      Except.ok ({ pl with
        nextGeometryId := id + 1,
        bodyIndexOf := fun g => if g = id then body else pl.bodyIndexOf g,
        visualGeometries := pl.visualGeometries ++ [(id, body)] }, id)

/-- RegisterCollisionGeometry (multibody_plant.cc:123-154): same gating as
the visual registration, additionally recording the coulomb friction at
the new collision index. -/
def Plant.RegisterCollisionGeometry (pl : Plant) (body : ℕ)
    (coulomb_friction : CoulombFriction)
    (sceneGraphNonNull sameSceneGraph : Bool) : Except String (Plant × ℕ) :=
  match ThrowIfFinalized pl "RegisterCollisionGeometry" with
  | Except.error e => Except.error e
  | Except.ok _ =>
    if !sceneGraphNonNull then
      Except.error "DRAKE_THROW_UNLESS failed: scene_graph is nullptr"
    else if !pl.sourceRegistered then
      Except.error "DRAKE_THROW_UNLESS failed: geometry source is not registered"
    else if !sameSceneGraph then
      Except.error "Geometry registration calls must be performed on the SAME instance of SceneGraph used on the first call to RegisterAsSourceForSceneGraph()"
    else
      let id := pl.nextGeometryId
      let collision_index := pl.numCollisionGeometries
      Except.ok ({ pl with
        nextGeometryId := id + 1,
        numCollisionGeometries := pl.numCollisionGeometries + 1,
        bodyIndexOf := fun g => if g = id then body else pl.bodyIndexOf g,
        collisionIndexOf :=
          fun g => if g = id then collision_index else pl.collisionIndexOf g,
        defaultFriction :=
          fun ci => if ci = collision_index then coulomb_friction
                    else pl.defaultFriction ci,
        collisionGeometries := pl.collisionGeometries ++ [(id, body)] }, id)

/-- set_penetration_allowance (multibody_plant.cc:467-523): pre-finalize
use throws; otherwise the three penalty parameters are recomputed from
the gravity norm, the maximum body mass and the allowance, and stored. -/
def Plant.set_penetration_allowance (pl : Plant) (penetration_allowance : ℝ) :
    Except String Plant :=
  match ThrowIfNotFinalized pl "set_penetration_allowance" with
  | Except.error e => Except.error e
  | Except.ok _ =>
    Except.ok { pl with penaltyParameters := CalcPenetrationAllowanceParameters pl.gravity pl.bodyMasses penetration_allowance }

/-- get_continuous_state_output_port (multibody_plant.cc:1220-1225). -/
def Plant.get_continuous_state_output_port (pl : Plant) : Except String ℕ :=
  match ThrowIfNotFinalized pl "get_continuous_state_output_port" with
  | Except.error e => Except.error e
  | Except.ok _ => Except.ok pl.continuousStateOutputPort

/-- CopyContinuousStateOut (multibody_plant.cc:1149-1154): copies the state
vector out of the context after the finalize check. -/
def Plant.CopyContinuousStateOut (pl : Plant) (state : List ℝ) :
    Except String (List ℝ) :=
  match ThrowIfNotFinalized pl "CopyContinuousStateOut" with
  | Except.error e => Except.error e
  | Except.ok _ => Except.ok state

/-- get_contact_results_output_port (multibody_plant.cc:1252-1258): the
finalize check, then DRAKE_THROW_UNLESS(is_discrete()). -/
def Plant.get_contact_results_output_port (pl : Plant) : Except String ℕ :=
  match ThrowIfNotFinalized pl "get_contact_results_output_port" with
  | Except.error e => Except.error e
  | Except.ok _ =>
    if !pl.isDiscrete then
      Except.error "DRAKE_THROW_UNLESS failed: is_discrete()"
    else Except.ok pl.contactResultsPort

/-- The combined friction of one point pair, as computed inside
CalcCombinedFrictionCoefficients (multibody_plant.cc:551-574): look up the
collision index of each geometry, take its default friction, combine. -/
def combinedPairFriction (pl : Plant) (pair : PointPair) : CoulombFriction :=
  CalcContactFrictionFromSurfaceProperties
    (pl.defaultFriction (pl.collisionIndexOf pair.id_A))
    (pl.defaultFriction (pl.collisionIndexOf pair.id_B))

/-- CalcCombinedFrictionCoefficients (multibody_plant.cc:551-574) as the
per-contact vector of combined frictions. -/
def CalcCombinedFrictionCoefficients (pl : Plant)
    (point_pairs : List PointPair) (i : Fin point_pairs.length) :
    CoulombFriction :=
  combinedPairFriction pl (point_pairs.get i)

/- ------------------------------------------------------------------
Continuous-mode penalty contact forces
(CalcAndAddContactForcesByPenaltyMethod, multibody_plant.cc:640-747).
pc maps a body node index to the world position of the body origin
(X_WB translation); vc maps it to the body spatial velocity V_WB.
------------------------------------------------------------------- -/

/-- Contact point C: the midpoint of the two witness points
(multibody_plant.cc:673). -/
def penaltyContactPoint (pair : PointPair) : V3 :=
  fun k => 0.5 * (pair.p_WCa k + pair.p_WCb k)

/-- p_CoAo_W = p_WAo - p_WC (multibody_plant.cc:676-678). -/
def penalty_p_CoAo (pl : Plant) (pc : ℕ → V3) (pair : PointPair) : V3 :=
  fun k => pc (pl.nodeIndex (pl.bodyIndexOf pair.id_A)) k
    - penaltyContactPoint pair k

/-- p_CoBo_W = p_WBo - p_WC (multibody_plant.cc:681-683). -/
def penalty_p_CoBo (pl : Plant) (pc : ℕ → V3) (pair : PointPair) : V3 :=
  fun k => pc (pl.nodeIndex (pl.bodyIndexOf pair.id_B)) k
    - penaltyContactPoint pair k

/-- v_AcBc_W = v_WBc - v_WAc, the velocity of the contact point moving with
B relative to the contact point moving with A (multibody_plant.cc:685-690). -/
def penalty_v_AcBc (pl : Plant) (pc : ℕ → V3) (vc : ℕ → SpatialVelocity)
    (pair : PointPair) : V3 :=
  let v_WAc := (vc (pl.nodeIndex (pl.bodyIndexOf pair.id_A))).shiftTranslational
    (fun k => -(penalty_p_CoAo pl pc pair k))
  let v_WBc := (vc (pl.nodeIndex (pl.bodyIndexOf pair.id_B))).shiftTranslational
    (fun k => -(penalty_p_CoBo pl pc pair k))
  fun k => v_WBc k - v_WAc k

/-- vn = v_AcBc_W · nhat_BA_W, positive when the bodies are getting closer
(multibody_plant.cc:692-693). -/
def penalty_vn (pl : Plant) (pc : ℕ → V3) (vc : ℕ → SpatialVelocity)
    (pair : PointPair) : ℝ :=
  penalty_v_AcBc pl pc vc pair ⬝ᵥ pair.nhat_BA_W

/-- fn_AC = k * x * (1 + d * vn), the Hunt-Crossley normal force magnitude
on body A at C (multibody_plant.cc:695-698). -/
def penalty_fn (pl : Plant) (pc : ℕ → V3) (vc : ℕ → SpatialVelocity)
    (pair : PointPair) : ℝ :=
  pl.penaltyParameters.stiffness * pair.depth
    * (1 + pl.penaltyParameters.damping * penalty_vn pl pc vc pair)

/-- vt_AcBc_W = v_AcBc_W - vn * nhat, the tangential relative velocity
(multibody_plant.cc:706). -/
def penalty_vt (pl : Plant) (pc : ℕ → V3) (vc : ℕ → SpatialVelocity)
    (pair : PointPair) : V3 :=
  fun k => penalty_v_AcBc pl pc vc pair k
    - penalty_vn pl pc vc pair * pair.nhat_BA_W k

/-- kNonZeroSqd = 1e-14 * 1e-14 (multibody_plant.cc:712). -/
def kNonZeroSqd : ℝ := 1e-14 * 1e-14

/-- The tangential friction force on A at C (multibody_plant.cc:713-726):
zero when the squared tangential speed is at most kNonZeroSqd, otherwise
mu_stribeck * fn times the unit tangential direction. -/
def penalty_ft (pl : Plant) (friction : CoulombFriction) (fn_AC : ℝ)
    (vt_AcBc_W : V3) : V3 :=
  let vt_squared := vt_AcBc_W ⬝ᵥ vt_AcBc_W
  if vt_squared > kNonZeroSqd then
    let vt := Real.sqrt vt_squared
    let mu_stribeck :=
      ComputeFrictionCoefficient pl.invStictionTolerance vt friction
    fun k => mu_stribeck * fn_AC * (vt_AcBc_W k / vt)
  else fun _ => 0

/-- The spatial contact force on body A at C expressed in W: zero torque,
force fn * nhat + ft (multibody_plant.cc:728-730). -/
def penalty_F_AC (pl : Plant) (pc : ℕ → V3) (vc : ℕ → SpatialVelocity)
    (pair : PointPair) : SpF :=
  (fun _ => 0,
   fun k => penalty_fn pl pc vc pair * pair.nhat_BA_W k
     + penalty_ft pl (combinedPairFriction pl pair)
         (penalty_fn pl pc vc pair) (penalty_vt pl pc vc pair) k)

/-- The spatial force this pair accumulates into body A's slot: F_AC shifted
to Ao when fn > 0, zero otherwise (multibody_plant.cc:700, 734-736). -/
def penaltyContribA (pl : Plant) (pc : ℕ → V3) (vc : ℕ → SpatialVelocity)
    (pair : PointPair) : SpF :=
  if 0 < penalty_fn pl pc vc pair then
    shiftSpatialForce (penalty_F_AC pl pc vc pair) (penalty_p_CoAo pl pc pair)
  else 0

/-- The spatial force this pair accumulates into body B's slot: the negation
of F_AC shifted to Bo when fn > 0, zero otherwise
(multibody_plant.cc:700, 739-742). -/
def penaltyContribB (pl : Plant) (pc : ℕ → V3) (vc : ℕ → SpatialVelocity)
    (pair : PointPair) : SpF :=
  if 0 < penalty_fn pl pc vc pair then
    -(shiftSpatialForce (penalty_F_AC pl pc vc pair)
        (penalty_p_CoBo pl pc pair))
  else 0

/-- One loop iteration of CalcAndAddContactForcesByPenaltyMethod
(multibody_plant.cc:652-746): when fn_AC > 0, add the shifted spatial
force into each non-world body's slot of the caller-owned array. -/
def AddPairContactForce (pl : Plant) (pc : ℕ → V3)
    (vc : ℕ → SpatialVelocity) (pair : PointPair) (Farr : ℕ → SpF) :
    ℕ → SpF :=
  if 0 < penalty_fn pl pc vc pair then
    let slotA := pl.nodeIndex (pl.bodyIndexOf pair.id_A)
    let F1 :=
      if pl.bodyIndexOf pair.id_A ≠ 0 then
        Function.update Farr slotA
          (Farr slotA + penaltyContribA pl pc vc pair)
      else Farr
    let slotB := pl.nodeIndex (pl.bodyIndexOf pair.id_B)
    if pl.bodyIndexOf pair.id_B ≠ 0 then
      Function.update F1 slotB (F1 slotB + penaltyContribB pl pc vc pair)
    else F1
  else Farr

/-- CalcAndAddContactForcesByPenaltyMethod (multibody_plant.cc:640-747):
early return when there is no collision geometry, otherwise fold the
per-pair accumulation over the point pairs. -/
def CalcAndAddContactForcesByPenaltyMethod (pl : Plant) (pc : ℕ → V3)
    (vc : ℕ → SpatialVelocity) (point_pairs : List PointPair)
    (F_BBo_W_array : ℕ → SpF) : ℕ → SpF :=
  if pl.numCollisionGeometries = 0 then F_BBo_W_array
  else point_pairs.foldl
    (fun Farr pair => AddPairContactForce pl pc vc pair Farr) F_BBo_W_array

/- ------------------------------------------------------------------
The tree / geometry / math collaborators consumed by the plant, and the
contact Jacobians and discrete update built on them.
------------------------------------------------------------------- -/

/-- The (q, v) content of the context the plant evaluates at. -/
structure Ctx (nq nv : ℕ) where
  q : Fin nq → ℝ
  v : Fin nv → ℝ

/-- A MultibodyForces aggregate: per-body-node spatial forces and per-DOF
generalized forces. -/
structure MbForces (nv : ℕ) where
  bodyForces : ℕ → SpF
  generalized : Fin nv → ℝ

/-- The black-box collaborators of the plant for one evaluation: the
multibody tree routines, the basis builder from drake::math, and the
point pairs reported by the geometry query. inverseDynamicsGeneralizedForces
is the generalized-forces output slot of MultibodyTree::CalcInverseDynamics
at the given vdot and applied forces; Nmat q is the kinematic map N(q) with
qdot = N(q) v. -/
structure Externals (nq nv : ℕ) where
  massMatrix : Ctx nq nv → Matrix (Fin nv) (Fin nv) ℝ
  forceElements : Ctx nq nv → MbForces nv
  addActuation : Ctx nq nv → MbForces nv → MbForces nv
  addDamping : Ctx nq nv → MbForces nv → MbForces nv
  inverseDynamicsGeneralizedForces :
    Ctx nq nv → (Fin nv → ℝ) → MbForces nv → (Fin nv → ℝ)
  Nmat : (Fin nq → ℝ) → Matrix (Fin nq) (Fin nv) ℝ
  pointsJacobian : Ctx nq nv → ℕ → V3 → Matrix (Fin 3) (Fin nv) ℝ
  computeBasisFromAxis : ℕ → V3 → Matrix (Fin 3) (Fin 3) ℝ
  pointPairs : List PointPair

/-- CalcNormalSeparationVelocitiesJacobian (multibody_plant.cc:349-397):
row i is nhat_BA_W applied to the difference Jv_WAc - Jv_WBc of the
contact-point geometric Jacobians. -/
def CalcNormalSeparationVelocitiesJacobian {nq nv : ℕ} (pl : Plant)
    (ext : Externals nq nv) (ctx : Ctx nq nv)
    (point_pairs_set : List PointPair) :
    Matrix (Fin point_pairs_set.length) (Fin nv) ℝ :=
  fun icontact j =>
    let point_pair := point_pairs_set.get icontact
    let Jv_WAc := ext.pointsJacobian ctx
      (pl.bodyIndexOf point_pair.id_A) point_pair.p_WCa
    let Jv_WBc := ext.pointsJacobian ctx
      (pl.bodyIndexOf point_pair.id_B) point_pair.p_WCb
    Matrix.vecMul point_pair.nhat_BA_W (Jv_WAc - Jv_WBc) j

/-- CalcTangentVelocitiesJacobian (multibody_plant.cc:399-465): rows 2i and
2i+1 apply the first two columns of R_WC = ComputeBasisFromAxis(2, nhat)
to the difference Jv_WBc - Jv_WAc. Row r belongs to pair r / 2 and uses
tangent r % 2. -/
def CalcTangentVelocitiesJacobian {nq nv : ℕ} (pl : Plant)
    (ext : Externals nq nv) (ctx : Ctx nq nv)
    (point_pairs_set : List PointPair) :
    Matrix (Fin (2 * point_pairs_set.length)) (Fin nv) ℝ :=
  fun r j =>
    let point_pair := point_pairs_set.getD (r.1 / 2) default
    let R_WC := ext.computeBasisFromAxis 2 point_pair.nhat_BA_W
    let that_W : V3 :=
      fun k => R_WC k (if r.1 % 2 = 0 then (0 : Fin 3) else 1)
    let Jv_WAc := ext.pointsJacobian ctx
      (pl.bodyIndexOf point_pair.id_A) point_pair.p_WCa
    let Jv_WBc := ext.pointsJacobian ctx
      (pl.bodyIndexOf point_pair.id_B) point_pair.p_WCb
    Matrix.vecMul that_W (Jv_WBc - Jv_WAc) j

/-- The approach speed of a contact, with the sign convention of the source
(multibody_plant.cc:685-693): vn = (v_WBc - v_WAc) · nhat_BA_W, positive
when the bodies are getting closer, here with the point velocities taken
from the same geometric Jacobians the Jacobian builders use. -/
def contactApproachSpeed {nq nv : ℕ} (pl : Plant) (ext : Externals nq nv)
    (ctx : Ctx nq nv) (pair : PointPair) (v : Fin nv → ℝ) : ℝ :=
  let Jv_WAc := ext.pointsJacobian ctx (pl.bodyIndexOf pair.id_A) pair.p_WCa
  let Jv_WBc := ext.pointsJacobian ctx (pl.bodyIndexOf pair.id_B) pair.p_WCb
  (fun k => Jv_WBc.mulVec v k - Jv_WAc.mulVec v k) ⬝ᵥ pair.nhat_BA_W

/-- The problem data handed to
ImplicitStribeckSolver::SetTwoWayCoupledProblemData
(multibody_plant.cc:987-989). -/
structure ProblemData (nv nc : ℕ) where
  M : Matrix (Fin nv) (Fin nv) ℝ
  Jn : Matrix (Fin nc) (Fin nv) ℝ
  Jt : Matrix (Fin (2 * nc)) (Fin nv) ℝ
  p_star : Fin nv → ℝ
  phi0 : Fin nc → ℝ
  stiffness : Fin nc → ℝ
  damping : Fin nc → ℝ
  mu : Fin nc → ℝ

/-- The implicit Stribeck solver as a black box: SolveWithGuess followed by
get_generalized_velocities (the plant demands Success). -/
structure ImplicitStribeckSolver (nv : ℕ) where
  solveWithGuess :
    (nc : ℕ) → ProblemData nv nc → ℝ → (Fin nv → ℝ) → (Fin nv → ℝ)

/-- The forces assembled at the previous step in
DoCalcDiscreteVariableUpdates (multibody_plant.cc:900-914): force
elements, then actuation, then joint damping; no contact forces. -/
def discreteForces0 {nq nv : ℕ} (ext : Externals nq nv) (ctx : Ctx nq nv) :
    MbForces nv :=
  ext.addDamping ctx (ext.addActuation ctx (ext.forceElements ctx))

/-- minus_tau: the generalized-forces output of inverse dynamics at vdot = 0
over the assembled applied forces (multibody_plant.cc:928-936). -/
def discreteMinusTau {nq nv : ℕ} (ext : Externals nq nv) (ctx : Ctx nq nv) :
    Fin nv → ℝ :=
  ext.inverseDynamicsGeneralizedForces ctx (fun _ => 0)
    (discreteForces0 ext ctx)

/-- The problem data built by DoCalcDiscreteVariableUpdates
(multibody_plant.cc:895-989): mass matrix and momentum
p_star = M0 v0 - dt * minus_tau, contact Jacobians at t0, per-contact
penetration depths, the global penalty stiffness and damping, and the
static coefficient of each combined friction. -/
def discreteProblemData {nq nv : ℕ} (pl : Plant) (ext : Externals nq nv)
    (dt : ℝ) (x0 : (Fin nq → ℝ) × (Fin nv → ℝ)) :
    ProblemData nv ext.pointPairs.length :=
  let q0 := x0.1
  let v0 := x0.2
  let ctx0 : Ctx nq nv := ⟨q0, v0⟩
  let M0 := ext.massMatrix ctx0
  let minus_tau := discreteMinusTau ext ctx0
  { M := M0
    Jn := CalcNormalSeparationVelocitiesJacobian pl ext ctx0 ext.pointPairs
    Jt := CalcTangentVelocitiesJacobian pl ext ctx0 ext.pointPairs
    p_star := fun i => M0.mulVec v0 i - dt * minus_tau i
    phi0 := fun i => (ext.pointPairs.get i).depth
    stiffness := fun _ => pl.penaltyParameters.stiffness
    damping := fun _ => pl.penaltyParameters.damping
    mu := fun i => (CalcCombinedFrictionCoefficients pl ext.pointPairs i).static_friction }

/-- DoCalcDiscreteVariableUpdates (multibody_plant.cc:875-1014): solve for
v_next with guess v0, map it through N(q0), advance the positions by one
explicit Euler step and store the concatenated next state (modelled as the
pair of its position and velocity segments). -/
def DoCalcDiscreteVariableUpdates {nq nv : ℕ} (pl : Plant)
    (ext : Externals nq nv) (solver : ImplicitStribeckSolver nv) (dt : ℝ)
    (x0 : (Fin nq → ℝ) × (Fin nv → ℝ)) :
    (Fin nq → ℝ) × (Fin nv → ℝ) :=
  let q0 := x0.1
  let v0 := x0.2
  let v_next := solver.solveWithGuess ext.pointPairs.length
    (discreteProblemData pl ext dt x0) dt v0
  let qdot_next := (ext.Nmat q0).mulVec v_next
  let q_next := fun i => q0 i + dt * qdot_next i
  (q_next, v_next)

/- ------------------------------------------------------------------
Concrete instances used to exhibit witnesses and counterexamples.
------------------------------------------------------------------- -/

/-- A small concrete plant: two bodies (0 = world, 1), identity geometry and
node numbering, unit frictions, not yet finalized, continuous mode. -/
def basePlant : Plant where
  finalized := false
  isDiscrete := false
  sourceRegistered := false
  numCollisionGeometries := 0
  bodyMasses := [0]
  gravity := none
  penaltyParameters := ⟨0, 0, -1⟩
  invStictionTolerance := 1
  bodyIndexOf := fun g => g
  collisionIndexOf := fun _ => 0
  defaultFriction := fun _ => ⟨1, 1⟩
  nodeIndex := fun b => b
  nextGeometryId := 0
  visualGeometries := []
  collisionGeometries := []
  continuousStateOutputPort := 0
  contactResultsPort := 1

/-- The base plant after Finalize, still in continuous mode. -/
def plantFin : Plant := { basePlant with finalized := true }

/-- The base plant after Finalize, in discrete mode. -/
def plantDiscFin : Plant := { basePlant with finalized := true, isDiscrete := true }

/-- The base plant with the dynamic friction coefficient halved everywhere
(static coefficients unchanged). -/
def plantFrB : Plant := { basePlant with defaultFriction := fun _ => ⟨1, 1 / 2⟩ }

/-- One concrete point pair: geometry 0 on body 0 against geometry 1 on
body 1, normal pointing along +z, zero depth. -/
def pairSimple : PointPair where
  id_A := 0
  id_B := 1
  p_WCa := fun _ => 0
  p_WCb := fun _ => 0
  nhat_BA_W := ![0, 0, 1]
  depth := 0

/-- Concrete collaborators with nq = nv = 1: the contact-point Jacobian of
body 0 is the zero matrix and that of any other body is the all-ones
matrix; one reported point pair. -/
def extBase : Externals 1 1 where
  massMatrix := fun _ => 0
  forceElements := fun _ => ⟨fun _ => 0, fun _ => 0⟩
  addActuation := fun _ f => f
  addDamping := fun _ f => f
  inverseDynamicsGeneralizedForces := fun _ _ _ => fun _ => 0
  Nmat := fun _ => 0
  pointsJacobian := fun _ body _ =>
    if body = 0 then 0 else Matrix.of fun _ _ => 1
  computeBasisFromAxis := fun _ _ => 0
  pointPairs := [pairSimple]

/-- A zero context for nq = nv = 1. -/
def ctx0W : Ctx 1 1 := ⟨fun _ => 0, fun _ => 0⟩

/-- The all-ones generalized velocity for nv = 1. -/
def v1W : Fin 1 → ℝ := fun _ => 1

/-- A zero discrete state for nq = nv = 1. -/
def x0W : (Fin 1 → ℝ) × (Fin 1 → ℝ) := (fun _ => 0, fun _ => 0)

/-- Zero position kinematics: every body origin at the world origin. -/
def pcZero : ℕ → V3 := fun _ _ => 0

/-- Zero velocity kinematics. -/
def vcZero : ℕ → SpatialVelocity := fun _ => ⟨fun _ => 0, fun _ => 0⟩

/-- A zero body-force accumulation array. -/
def FarrZero : ℕ → SpF := fun _ => 0

/- ------------------------------------------------------------------
Helper lemmas.
------------------------------------------------------------------- -/

theorem le_foldl_max_init (l : List ℝ) :
    ∀ a : ℝ, a ≤ l.foldl (fun m bm => max m bm) a := by
  induction l with
  | nil => intro a; exact le_refl a
  | cons b t ih =>
      intro a
      exact le_trans (le_max_left a b) (ih (max a b))

theorem mem_le_foldl_max (l : List ℝ) :
    ∀ (a x : ℝ), x ∈ l → x ≤ l.foldl (fun m bm => max m bm) a := by
  induction l with
  | nil => intro a x hx; cases hx
  | cons b t ih =>
      intro a x hx
      rcases List.mem_cons.mp hx with h | h
      · subst h
        exact le_trans (le_max_right a x) (le_foldl_max_init t (max a x))
      · exact ih (max a b) x h

theorem shiftSpatialForce_zero (p : V3) : shiftSpatialForce 0 p = 0 := by
  rw [Prod.ext_iff]
  constructor
  · funext k
    simp [shiftSpatialForce, cross3]
  · rfl

theorem shiftSpatialForce_neg (F : SpF) (p : V3) :
    shiftSpatialForce (-F) p = -(shiftSpatialForce F p) := by
  rw [Prod.ext_iff]
  constructor
  · funext k
    simp [shiftSpatialForce, cross3]
    ring
  · rfl

theorem shiftSpatialForce_roundtrip (F : SpF) (p : V3) :
    shiftSpatialForce (shiftSpatialForce F p) (fun k => -(p k)) = F := by
  rw [Prod.ext_iff]
  constructor
  · funext k
    simp [shiftSpatialForce, cross3]
    ring
  · rfl

theorem addPair_world_slot (pl : Plant) (pc : ℕ → V3)
    (vc : ℕ → SpatialVelocity) (pair : PointPair) (Farr : ℕ → SpF)
    (hinj : ∀ b, pl.nodeIndex b = pl.nodeIndex 0 → b = 0) :
    AddPairContactForce pl pc vc pair Farr (pl.nodeIndex 0)
      = Farr (pl.nodeIndex 0) := by
  have hne : ∀ b : ℕ, b ≠ 0 → pl.nodeIndex 0 ≠ pl.nodeIndex b :=
    fun b hb heq => hb (hinj b heq.symm)
  simp only [AddPairContactForce]
  by_cases h : 0 < penalty_fn pl pc vc pair
  · rw [if_pos h]
    by_cases hB : pl.bodyIndexOf pair.id_B ≠ 0
    · rw [if_pos hB, Function.update_noteq (hne _ hB)]
      by_cases hA : pl.bodyIndexOf pair.id_A ≠ 0
      · rw [if_pos hA, Function.update_noteq (hne _ hA)]
      · rw [if_neg hA]
    · rw [if_neg hB]
      by_cases hA : pl.bodyIndexOf pair.id_A ≠ 0
      · rw [if_pos hA, Function.update_noteq (hne _ hA)]
      · rw [if_neg hA]
  · rw [if_neg h]

theorem penalty_foldl_world_slot (pl : Plant) (pc : ℕ → V3)
    (vc : ℕ → SpatialVelocity)
    (hinj : ∀ b, pl.nodeIndex b = pl.nodeIndex 0 → b = 0) :
    ∀ (ps : List PointPair) (Farr : ℕ → SpF),
      (ps.foldl (fun F pair => AddPairContactForce pl pc vc pair F) Farr)
          (pl.nodeIndex 0)
        = Farr (pl.nodeIndex 0) := by
  intro ps
  induction ps with
  | nil => intro Farr; rfl
  | cons p t ih =>
      intro Farr
      rw [List.foldl_cons, ih, addPair_world_slot pl pc vc p Farr hinj]

/- ------------------------------------------------------------------
Claim theorems.
------------------------------------------------------------------- -/

/-- Claim C3: for every non-negative slip speed and friction pair, with
s = speed / v*, the Stribeck coefficient is mu_d for s ≥ 3,
mu_s - (mu_s - mu_d) * step5((s-1)/2) for 1 ≤ s < 3, and
mu_s * step5(s) for 0 ≤ s < 1, where step5(x) = 10x³ - 15x⁴ + 6x⁵. -/
theorem stribeck_friction_coefficient_piecewise (v_stiction speed : ℝ)
    (friction : CoulombFriction) (hv : 0 < v_stiction) (hsp : 0 ≤ speed) :
    (3 ≤ speed / v_stiction →
        ComputeFrictionCoefficient v_stiction⁻¹ speed friction
          = friction.dynamic_friction)
  ∧ (1 ≤ speed / v_stiction ∧ speed / v_stiction < 3 →
        ComputeFrictionCoefficient v_stiction⁻¹ speed friction
          = friction.static_friction
            - (friction.static_friction - friction.dynamic_friction)
              * (10 * ((speed / v_stiction - 1) / 2) ^ 3
                 - 15 * ((speed / v_stiction - 1) / 2) ^ 4
                 + 6 * ((speed / v_stiction - 1) / 2) ^ 5))
  ∧ (0 ≤ speed / v_stiction ∧ speed / v_stiction < 1 →
        ComputeFrictionCoefficient v_stiction⁻¹ speed friction
          = friction.static_friction
            * (10 * (speed / v_stiction) ^ 3 - 15 * (speed / v_stiction) ^ 4
               + 6 * (speed / v_stiction) ^ 5)) := by
  have hmul : speed * v_stiction⁻¹ = speed / v_stiction :=
    (div_eq_mul_inv speed v_stiction).symm
  refine ⟨?_, ?_, ?_⟩
  · intro h
    have h3 : speed * v_stiction⁻¹ ≥ 3 := by rw [hmul]; exact h
    simp only [ComputeFrictionCoefficient, if_pos h3]
  · rintro ⟨h1, h3⟩
    have hge : speed * v_stiction⁻¹ ≥ 1 := by rw [hmul]; exact h1
    have hnlt : ¬ speed * v_stiction⁻¹ ≥ 3 := by rw [hmul]; exact not_le.mpr h3
    simp only [ComputeFrictionCoefficient]
    rw [if_neg hnlt, if_pos hge]
    simp only [step5, hmul]
    ring
  · rintro ⟨h0, h1⟩
    have hnlt3 : ¬ speed * v_stiction⁻¹ ≥ 3 := by
      rw [hmul]; exact not_le.mpr (lt_trans h1 (by norm_num))
    have hnlt1 : ¬ speed * v_stiction⁻¹ ≥ 1 := by rw [hmul]; exact not_le.mpr h1
    simp only [ComputeFrictionCoefficient]
    rw [if_neg hnlt3, if_neg hnlt1]
    simp only [step5, hmul]
    ring

/-- Witness for C3 at v* = 1, speed = 0, friction (1, 1/2): the hypotheses
hold and the piecewise description applies. -/
theorem stribeck_friction_coefficient_piecewise_witness :
    (0 < (1 : ℝ) ∧ (0 : ℝ) ≤ 0)
  ∧ ((0 ≤ (0 : ℝ) / 1 ∧ (0 : ℝ) / 1 < 1 →
        ComputeFrictionCoefficient (1 : ℝ)⁻¹ 0 ⟨1, 1 / 2⟩
          = (⟨1, 1 / 2⟩ : CoulombFriction).static_friction
            * (10 * ((0 : ℝ) / 1) ^ 3 - 15 * ((0 : ℝ) / 1) ^ 4
               + 6 * ((0 : ℝ) / 1) ^ 5))) :=
  ⟨⟨by norm_num, le_refl 0⟩,
    (stribeck_friction_coefficient_piecewise 1 0 ⟨1, 1 / 2⟩ (by norm_num)
      (le_refl 0)).2.2⟩

/-- Claim C10: for a non-negative slip speed and strictly positive stiction
tolerance, every step5 evaluation inside ComputeFrictionCoefficient
receives an argument in [0, 1]; with the step5 assertion kept live the
computation still succeeds and returns the same value. -/
theorem stribeck_step5_argument_in_unit_interval (v_stiction speed : ℝ)
    (friction : CoulombFriction) (hv : 0 < v_stiction) (hsp : 0 ≤ speed) :
    ComputeFrictionCoefficientChecked v_stiction⁻¹ speed friction
      = some (ComputeFrictionCoefficient v_stiction⁻¹ speed friction) := by
  have hvnn : 0 ≤ speed * v_stiction⁻¹ :=
    mul_nonneg hsp (le_of_lt (inv_pos.mpr hv))
  simp only [ComputeFrictionCoefficientChecked, ComputeFrictionCoefficient,
    step5Checked]
  by_cases h3 : speed * v_stiction⁻¹ ≥ 3
  · rw [if_pos h3, if_pos h3]
  · rw [if_neg h3, if_neg h3]
    by_cases h1 : speed * v_stiction⁻¹ ≥ 1
    · rw [if_pos h1, if_pos h1,
        if_pos (⟨by linarith, by linarith [not_le.mp h3]⟩ :
          0 ≤ (speed * v_stiction⁻¹ - 1) / 2 ∧ (speed * v_stiction⁻¹ - 1) / 2 ≤ 1)]
      rfl
    · rw [if_neg h1, if_neg h1,
        if_pos (⟨hvnn, by linarith [not_le.mp h1]⟩ :
          0 ≤ speed * v_stiction⁻¹ ∧ speed * v_stiction⁻¹ ≤ 1)]
      rfl

/-- Witness for C10 at v* = 1, speed = 2, friction (1, 1/2). -/
theorem stribeck_step5_argument_in_unit_interval_witness :
    (0 < (1 : ℝ) ∧ (0 : ℝ) ≤ 2)
  ∧ ComputeFrictionCoefficientChecked (1 : ℝ)⁻¹ 2 ⟨1, 1 / 2⟩
      = some (ComputeFrictionCoefficient (1 : ℝ)⁻¹ 2 ⟨1, 1 / 2⟩) :=
  ⟨⟨by norm_num, by norm_num⟩,
    stribeck_step5_argument_in_unit_interval 1 2 ⟨1, 1 / 2⟩ (by norm_num)
      (by norm_num)⟩

/-- Claim C1: in the discrete update, the momentum handed to the solver is
p_star = M0 v0 - dt * minus_tau, where minus_tau is the generalized-forces
output of inverse dynamics at (q0, v0) with vdot = 0 over the
force-element, actuation and joint-damping forces (no contact forces);
the next position is q0 + dt * N(q0) v_next with the solver's v_next, and
the new discrete state is the concatenation (q_next, v_next). -/
theorem discrete_update_momentum_and_state {nq nv : ℕ} (pl : Plant)
    (ext : Externals nq nv) (solver : ImplicitStribeckSolver nv) (dt : ℝ)
    (x0 : (Fin nq → ℝ) × (Fin nv → ℝ)) :
    (discreteProblemData pl ext dt x0).p_star
        = (fun i => (ext.massMatrix ⟨x0.1, x0.2⟩).mulVec x0.2 i
            - dt * ext.inverseDynamicsGeneralizedForces ⟨x0.1, x0.2⟩
                (fun _ => 0)
                (ext.addDamping ⟨x0.1, x0.2⟩
                  (ext.addActuation ⟨x0.1, x0.2⟩
                    (ext.forceElements ⟨x0.1, x0.2⟩))) i)
  ∧ DoCalcDiscreteVariableUpdates pl ext solver dt x0
      = ((fun i => x0.1 i
            + dt * (ext.Nmat x0.1).mulVec
                (solver.solveWithGuess ext.pointPairs.length
                  (discreteProblemData pl ext dt x0) dt x0.2) i),
          solver.solveWithGuess ext.pointPairs.length
            (discreteProblemData pl ext dt x0) dt x0.2) :=
  ⟨rfl, rfl⟩

/-- Claim C7: in the discrete update the per-contact friction handed to the
implicit Stribeck solver is exactly the static coefficient of the
combined CoulombFriction; the dynamic coefficients never influence it. -/
theorem discrete_friction_uses_static_only {nq nv : ℕ} (pl pl2 : Plant)
    (ext : Externals nq nv) (dt : ℝ) (x0 : (Fin nq → ℝ) × (Fin nv → ℝ))
    (hidx : pl2.collisionIndexOf = pl.collisionIndexOf)
    (hstat : ∀ g, (pl2.defaultFriction g).static_friction
        = (pl.defaultFriction g).static_friction) :
    (∀ i : Fin ext.pointPairs.length,
        (discreteProblemData pl ext dt x0).mu i
          = (combinedPairFriction pl (ext.pointPairs.get i)).static_friction)
  ∧ (discreteProblemData pl2 ext dt x0).mu
      = (discreteProblemData pl ext dt x0).mu := by
  constructor
  · intro i
    rfl
  · funext i
    simp only [discreteProblemData, CalcCombinedFrictionCoefficients,
      combinedPairFriction, CalcContactFrictionFromSurfaceProperties, hidx,
      hstat]

/-- Witness for C7: two concrete plants differing only in the dynamic
coefficients produce the same friction vector for the solver. -/
theorem discrete_friction_uses_static_only_witness :
    plantFrB.collisionIndexOf = basePlant.collisionIndexOf
  ∧ (∀ g, (plantFrB.defaultFriction g).static_friction
        = (basePlant.defaultFriction g).static_friction)
  ∧ (discreteProblemData plantFrB extBase 1 x0W).mu
      = (discreteProblemData basePlant extBase 1 x0W).mu :=
  ⟨rfl, fun _ => rfl,
    (discrete_friction_uses_static_only basePlant plantFrB extBase 1 x0W rfl
      (fun _ => rfl)).2⟩

/-- Claim C5: for every penetration allowance δ > 0 on a finalized plant,
set_penetration_allowance overwrites the stored penalty parameters with
stiffness k = m g / δ, time scale 1 / sqrt(k / m) and damping
time_scale / δ, where m is the maximum default mass over all bodies
(the world included, the running maximum starting at 0) and g is the
norm of the configured gravity vector, 9.81 when none is configured. -/
theorem penetration_allowance_parameters (pl : Plant) (δ : ℝ)
    (hδ : 0 < δ) (hfin : pl.finalized = true) :
    (∀ x ∈ pl.bodyMasses,
        x ≤ pl.bodyMasses.foldl (fun m bm => max m bm) 0)
  ∧ pl.set_penetration_allowance δ
      = Except.ok { pl with penaltyParameters :=
          { stiffness := (pl.bodyMasses.foldl (fun m bm => max m bm) 0)
              * (match pl.gravity with
                 | some gv => Real.sqrt (gv ⬝ᵥ gv)
                 | none => 9.81) / δ
            damping := (1 / Real.sqrt
                (((pl.bodyMasses.foldl (fun m bm => max m bm) 0)
                    * (match pl.gravity with
                       | some gv => Real.sqrt (gv ⬝ᵥ gv)
                       | none => 9.81) / δ)
                  / (pl.bodyMasses.foldl (fun m bm => max m bm) 0))) / δ
            time_scale := 1 / Real.sqrt
                (((pl.bodyMasses.foldl (fun m bm => max m bm) 0)
                    * (match pl.gravity with
                       | some gv => Real.sqrt (gv ⬝ᵥ gv)
                       | none => 9.81) / δ)
                  / (pl.bodyMasses.foldl (fun m bm => max m bm) 0)) } } := by
  refine ⟨fun x hx => mem_le_foldl_max _ 0 x hx, ?_⟩
  simp only [Plant.set_penetration_allowance, ThrowIfNotFinalized, hfin,
    if_true, CalcPenetrationAllowanceParameters, one_mul]

/-- Witness for C5 at the finalized base plant with δ = 1. -/
theorem penetration_allowance_parameters_witness :
    (0 < (1 : ℝ) ∧ plantFin.finalized = true)
  ∧ plantFin.set_penetration_allowance 1
      = Except.ok { plantFin with penaltyParameters :=
          { stiffness := (plantFin.bodyMasses.foldl (fun m bm => max m bm) 0)
              * (match plantFin.gravity with
                 | some gv => Real.sqrt (gv ⬝ᵥ gv)
                 | none => 9.81) / 1
            damping := (1 / Real.sqrt
                (((plantFin.bodyMasses.foldl (fun m bm => max m bm) 0)
                    * (match plantFin.gravity with
                       | some gv => Real.sqrt (gv ⬝ᵥ gv)
                       | none => 9.81) / 1)
                  / (plantFin.bodyMasses.foldl (fun m bm => max m bm) 0))) / 1
            time_scale := 1 / Real.sqrt
                (((plantFin.bodyMasses.foldl (fun m bm => max m bm) 0)
                    * (match plantFin.gravity with
                       | some gv => Real.sqrt (gv ⬝ᵥ gv)
                       | none => 9.81) / 1)
                  / (plantFin.bodyMasses.foldl (fun m bm => max m bm) 0)) } } :=
  ⟨⟨by norm_num, rfl⟩,
    (penetration_allowance_parameters plantFin 1 (by norm_num) rfl).2⟩

/-- Claim C8: calling a topology-mutating method after Finalize raises the
post-finalize error naming the method; calling an operational-state
method before Finalize raises the pre-finalize error naming the method.
Each failing call returns only the error, so the plant is unchanged. -/
theorem finalize_gating_errors (pl : Plant) (body : ℕ)
    (fric : CoulombFriction) (b1 b2 : Bool) (δ : ℝ) (state : List ℝ) :
    (pl.finalized = true →
        pl.RegisterVisualGeometry body b1 b2
            = Except.error (postFinalizeMessage "RegisterVisualGeometry")
      ∧ pl.RegisterCollisionGeometry body fric b1 b2
            = Except.error (postFinalizeMessage "RegisterCollisionGeometry"))
  ∧ (pl.finalized = false →
        pl.get_continuous_state_output_port
            = Except.error (preFinalizeMessage "get_continuous_state_output_port")
      ∧ pl.set_penetration_allowance δ
            = Except.error (preFinalizeMessage "set_penetration_allowance")
      ∧ pl.CopyContinuousStateOut state
            = Except.error (preFinalizeMessage "CopyContinuousStateOut")) := by
  constructor
  · intro h
    constructor
    · simp [Plant.RegisterVisualGeometry, ThrowIfFinalized, h]
    · simp [Plant.RegisterCollisionGeometry, ThrowIfFinalized, h]
  · intro h
    refine ⟨?_, ?_, ?_⟩
    · simp [Plant.get_continuous_state_output_port, ThrowIfNotFinalized, h]
    · simp [Plant.set_penetration_allowance, ThrowIfNotFinalized, h]
    · simp [Plant.CopyContinuousStateOut, ThrowIfNotFinalized, h]

/-- Witness for C8: a finalized plant rejects registration with the
post-finalize message; an unfinalized plant rejects the state output
port getter with the pre-finalize message. -/
theorem finalize_gating_errors_witness :
    (plantFin.finalized = true
      ∧ plantFin.RegisterVisualGeometry 1 true true
          = Except.error (postFinalizeMessage "RegisterVisualGeometry"))
  ∧ (basePlant.finalized = false
      ∧ basePlant.get_continuous_state_output_port
          = Except.error (preFinalizeMessage "get_continuous_state_output_port")) :=
  ⟨⟨rfl, ((finalize_gating_errors plantFin 1 ⟨1, 1⟩ true true 1 []).1 rfl).1⟩,
   ⟨rfl, ((finalize_gating_errors basePlant 1 ⟨1, 1⟩ true true 1 []).2 rfl).1⟩⟩

/-- Counterexample to claim C9 as stated: the concrete finalized CONTINUOUS
plant plantFin raises an error from get_contact_results_output_port
(the getter demands is_discrete()), contradicting the claim that every
finalized plant gets the port without error. -/
theorem contact_results_port_continuous_counterexample :
    plantFin.get_contact_results_output_port
      = Except.error "DRAKE_THROW_UNLESS failed: is_discrete()" := by
  rfl

/-- Claim C9 (amended): for every finalized plant,
get_contact_results_output_port returns the ContactResults port without
error exactly in discrete mode; for a finalized continuous plant it
raises the is_discrete() error. -/
theorem contact_results_port_discrete_only (pl : Plant)
    (hfin : pl.finalized = true) :
    (pl.isDiscrete = true →
        pl.get_contact_results_output_port = Except.ok pl.contactResultsPort)
  ∧ (pl.isDiscrete = false →
        pl.get_contact_results_output_port
          = Except.error "DRAKE_THROW_UNLESS failed: is_discrete()") := by
  constructor <;> intro h <;>
    simp [Plant.get_contact_results_output_port, ThrowIfNotFinalized, hfin, h]

/-- Witness for C9 (amended): the finalized discrete plant obtains the
ContactResults port. -/
theorem contact_results_port_discrete_only_witness :
    (plantDiscFin.finalized = true ∧ plantDiscFin.isDiscrete = true)
  ∧ plantDiscFin.get_contact_results_output_port
      = Except.ok plantDiscFin.contactResultsPort :=
  ⟨⟨rfl, rfl⟩, (contact_results_port_discrete_only plantDiscFin rfl).1 rfl⟩

/-- Claim C6: at each penalty contact, the spatial force accumulated on
body A (F_AC shifted to Ao) and the one accumulated on body B (the
negation of F_AC shifted to Bo) are equal and opposite once both are
shifted back to the common contact point C. This holds for every pair,
in particular when neither body is the world. -/
theorem penalty_newton_third_law (pl : Plant) (pc : ℕ → V3)
    (vc : ℕ → SpatialVelocity) (pair : PointPair) :
    shiftSpatialForce (penaltyContribA pl pc vc pair)
        (fun k => -(penalty_p_CoAo pl pc pair k))
      = -(shiftSpatialForce (penaltyContribB pl pc vc pair)
          (fun k => -(penalty_p_CoBo pl pc pair k))) := by
  unfold penaltyContribA penaltyContribB
  by_cases h : 0 < penalty_fn pl pc vc pair
  · rw [if_pos h, if_pos h, shiftSpatialForce_roundtrip, shiftSpatialForce_neg,
      shiftSpatialForce_roundtrip, neg_neg]
  · rw [if_neg h, if_neg h, shiftSpatialForce_zero, shiftSpatialForce_zero,
      neg_zero]

/-- Claim C2: in the continuous penalty path the normal magnitude on A is
fn = k x (1 + d vn); a pair with non-positive fn contributes nothing at
all; when fn is positive the friction force is mu fn (vt / norm vt) with
mu the Stribeck coefficient of the tangential speed if the squared
tangential speed exceeds 10⁻²⁸ and exactly zero otherwise; and the world
body slot is never touched by the accumulation. -/
theorem penalty_contact_force_law (pl : Plant) (pc : ℕ → V3)
    (vc : ℕ → SpatialVelocity) (pair : PointPair)
    (point_pairs : List PointPair) (Farr : ℕ → SpF)
    (hdepth : 0 ≤ pair.depth)
    (hinj : ∀ b, pl.nodeIndex b = pl.nodeIndex 0 → b = 0) :
    penalty_fn pl pc vc pair
        = pl.penaltyParameters.stiffness * pair.depth
          * (1 + pl.penaltyParameters.damping * penalty_vn pl pc vc pair)
  ∧ (¬ 0 < penalty_fn pl pc vc pair →
        AddPairContactForce pl pc vc pair Farr = Farr)
  ∧ (0 < penalty_fn pl pc vc pair →
        penalty_ft pl (combinedPairFriction pl pair)
            (penalty_fn pl pc vc pair) (penalty_vt pl pc vc pair)
          = if 1 / 10 ^ 28 <
                penalty_vt pl pc vc pair ⬝ᵥ penalty_vt pl pc vc pair then
              fun k =>
                ComputeFrictionCoefficient pl.invStictionTolerance
                    (Real.sqrt
                      (penalty_vt pl pc vc pair ⬝ᵥ penalty_vt pl pc vc pair))
                    (combinedPairFriction pl pair)
                  * penalty_fn pl pc vc pair
                  * (penalty_vt pl pc vc pair k
                     / Real.sqrt
                        (penalty_vt pl pc vc pair ⬝ᵥ penalty_vt pl pc vc pair))
            else fun _ => 0)
  ∧ CalcAndAddContactForcesByPenaltyMethod pl pc vc point_pairs Farr
        (pl.nodeIndex 0)
      = Farr (pl.nodeIndex 0) := by
  refine ⟨rfl, ?_, ?_, ?_⟩
  · intro h
    simp only [AddPairContactForce, if_neg h]
  · intro _
    have hk : kNonZeroSqd = 1 / 10 ^ 28 := by norm_num [kNonZeroSqd]
    simp only [penalty_ft, gt_iff_lt, hk]
  · simp only [CalcAndAddContactForcesByPenaltyMethod]
    by_cases hn : pl.numCollisionGeometries = 0
    · rw [if_pos hn]
    · rw [if_neg hn]
      exact penalty_foldl_world_slot pl pc vc hinj point_pairs Farr

/-- Witness for C2 at the concrete base plant, zero kinematics and the
simple point pair. -/
theorem penalty_contact_force_law_witness :
    (0 ≤ pairSimple.depth
      ∧ (∀ b, basePlant.nodeIndex b = basePlant.nodeIndex 0 → b = 0))
  ∧ (penalty_fn basePlant pcZero vcZero pairSimple
        = basePlant.penaltyParameters.stiffness * pairSimple.depth
          * (1 + basePlant.penaltyParameters.damping
              * penalty_vn basePlant pcZero vcZero pairSimple)
    ∧ (¬ 0 < penalty_fn basePlant pcZero vcZero pairSimple →
          AddPairContactForce basePlant pcZero vcZero pairSimple FarrZero
            = FarrZero)
    ∧ (0 < penalty_fn basePlant pcZero vcZero pairSimple →
          penalty_ft basePlant (combinedPairFriction basePlant pairSimple)
              (penalty_fn basePlant pcZero vcZero pairSimple)
              (penalty_vt basePlant pcZero vcZero pairSimple)
            = if 1 / 10 ^ 28 <
                  penalty_vt basePlant pcZero vcZero pairSimple
                    ⬝ᵥ penalty_vt basePlant pcZero vcZero pairSimple then
                fun k =>
                  ComputeFrictionCoefficient basePlant.invStictionTolerance
                      (Real.sqrt
                        (penalty_vt basePlant pcZero vcZero pairSimple
                          ⬝ᵥ penalty_vt basePlant pcZero vcZero pairSimple))
                      (combinedPairFriction basePlant pairSimple)
                    * penalty_fn basePlant pcZero vcZero pairSimple
                    * (penalty_vt basePlant pcZero vcZero pairSimple k
                       / Real.sqrt
                          (penalty_vt basePlant pcZero vcZero pairSimple
                            ⬝ᵥ penalty_vt basePlant pcZero vcZero pairSimple))
              else fun _ => 0)
    ∧ CalcAndAddContactForcesByPenaltyMethod basePlant pcZero vcZero
          [pairSimple] FarrZero (basePlant.nodeIndex 0)
        = FarrZero (basePlant.nodeIndex 0)) :=
  ⟨⟨le_refl 0, fun _ h => h⟩,
    penalty_contact_force_law basePlant pcZero vcZero pairSimple [pairSimple]
      FarrZero (le_refl 0) (fun _ h => h)⟩

/-- Counterexample to claim C4 as stated: at a concrete contact (zero
Jacobian for body A, all-ones Jacobian for body B, normal +z, v = 1) the
bodies are approaching (approach speed 1 > 0) yet the normal Jacobian
row times v is negative, refuting that Jn v > 0 exactly when the bodies
are approaching. -/
theorem contact_jacobian_sign_counterexample :
    0 < contactApproachSpeed basePlant extBase ctx0W pairSimple v1W
  ∧ Matrix.mulVec
      (CalcNormalSeparationVelocitiesJacobian basePlant extBase ctx0W
        [pairSimple]) v1W ⟨0, by norm_num⟩ < 0 := by
  constructor
  · simp [contactApproachSpeed, basePlant, extBase, pairSimple, v1W,
      Matrix.mulVec, dotProduct, Fin.sum_univ_three, Fin.sum_univ_one,
      Matrix.sub_apply, Matrix.of_apply]
  · simp [CalcNormalSeparationVelocitiesJacobian, Matrix.mulVec,
      Matrix.vecMul, dotProduct, Fin.sum_univ_three, Fin.sum_univ_one,
      basePlant, extBase, pairSimple, v1W, Matrix.sub_apply, Matrix.of_apply]

/-- Claim C4 (amended): the normal row is Jn[i,:] = nhat_BA_Wᵀ (J_WAc -
J_WBc), the tangent rows are Jt[2i,:] = t1ᵀ (J_WBc - J_WAc) and
Jt[2i+1,:] = t2ᵀ (J_WBc - J_WAc); consequently Jn v equals MINUS the
approach speed of contact i, so Jn v > 0 exactly when the bodies are
SEPARATING (not approaching: Jn is the separation-velocities Jacobian). -/
theorem contact_jacobian_rows_and_sign {nq nv : ℕ} (pl : Plant)
    (ext : Externals nq nv) (ctx : Ctx nq nv) (pairs : List PointPair)
    (i : Fin pairs.length) :
    (∀ j, CalcNormalSeparationVelocitiesJacobian pl ext ctx pairs i j
        = Matrix.vecMul (pairs.get i).nhat_BA_W
            (ext.pointsJacobian ctx (pl.bodyIndexOf (pairs.get i).id_A)
                (pairs.get i).p_WCa
              - ext.pointsJacobian ctx (pl.bodyIndexOf (pairs.get i).id_B)
                (pairs.get i).p_WCb) j)
  ∧ (∀ j, CalcTangentVelocitiesJacobian pl ext ctx pairs
          ⟨2 * i.1, by have := i.isLt; omega⟩ j
        = Matrix.vecMul
            (fun k => ext.computeBasisFromAxis 2 (pairs.get i).nhat_BA_W k 0)
            (ext.pointsJacobian ctx (pl.bodyIndexOf (pairs.get i).id_B)
                (pairs.get i).p_WCb
              - ext.pointsJacobian ctx (pl.bodyIndexOf (pairs.get i).id_A)
                (pairs.get i).p_WCa) j)
  ∧ (∀ j, CalcTangentVelocitiesJacobian pl ext ctx pairs
          ⟨2 * i.1 + 1, by have := i.isLt; omega⟩ j
        = Matrix.vecMul
            (fun k => ext.computeBasisFromAxis 2 (pairs.get i).nhat_BA_W k 1)
            (ext.pointsJacobian ctx (pl.bodyIndexOf (pairs.get i).id_B)
                (pairs.get i).p_WCb
              - ext.pointsJacobian ctx (pl.bodyIndexOf (pairs.get i).id_A)
                (pairs.get i).p_WCa) j)
  ∧ (∀ v, Matrix.mulVec
          (CalcNormalSeparationVelocitiesJacobian pl ext ctx pairs) v i
        = -(contactApproachSpeed pl ext ctx (pairs.get i) v))
  ∧ (∀ v, 0 < Matrix.mulVec
          (CalcNormalSeparationVelocitiesJacobian pl ext ctx pairs) v i
        ↔ contactApproachSpeed pl ext ctx (pairs.get i) v < 0) := by
  have hpair0 : pairs.getD (2 * i.1 / 2) default = pairs.get i := by
    have h1 : 2 * i.1 / 2 = i.1 := by omega
    rw [h1, List.getD_eq_get _ _ i.isLt]
  have hpair1 : pairs.getD ((2 * i.1 + 1) / 2) default = pairs.get i := by
    have h1 : (2 * i.1 + 1) / 2 = i.1 := by omega
    rw [h1, List.getD_eq_get _ _ i.isLt]
  have key : ∀ v, Matrix.mulVec
      (CalcNormalSeparationVelocitiesJacobian pl ext ctx pairs) v i
        = -(contactApproachSpeed pl ext ctx (pairs.get i) v) := by
    intro v
    have step1 : Matrix.mulVec
        (CalcNormalSeparationVelocitiesJacobian pl ext ctx pairs) v i
        = Matrix.vecMul (pairs.get i).nhat_BA_W
            (ext.pointsJacobian ctx (pl.bodyIndexOf (pairs.get i).id_A)
                (pairs.get i).p_WCa
              - ext.pointsJacobian ctx (pl.bodyIndexOf (pairs.get i).id_B)
                (pairs.get i).p_WCb) ⬝ᵥ v := rfl
    have step2 : contactApproachSpeed pl ext ctx (pairs.get i) v
        = ((ext.pointsJacobian ctx (pl.bodyIndexOf (pairs.get i).id_B)
              (pairs.get i).p_WCb).mulVec v
            - (ext.pointsJacobian ctx (pl.bodyIndexOf (pairs.get i).id_A)
                (pairs.get i).p_WCa).mulVec v)
          ⬝ᵥ (pairs.get i).nhat_BA_W := rfl
    rw [step1, step2, ← Matrix.dotProduct_mulVec, Matrix.sub_mulVec,
      ← Matrix.neg_dotProduct, neg_sub, Matrix.dotProduct_comm]
  refine ⟨fun j => rfl, ?_, ?_, key, fun v => by rw [key v]; exact neg_pos⟩
  · intro j
    show Matrix.vecMul
        (fun k => ext.computeBasisFromAxis 2
            (pairs.getD (2 * i.1 / 2) default).nhat_BA_W k
            (if 2 * i.1 % 2 = 0 then (0 : Fin 3) else 1))
        (ext.pointsJacobian ctx
            (pl.bodyIndexOf (pairs.getD (2 * i.1 / 2) default).id_B)
            (pairs.getD (2 * i.1 / 2) default).p_WCb
          - ext.pointsJacobian ctx
            (pl.bodyIndexOf (pairs.getD (2 * i.1 / 2) default).id_A)
            (pairs.getD (2 * i.1 / 2) default).p_WCa) j
      = _
    have h2 : 2 * i.1 % 2 = 0 := by omega
    rw [hpair0, h2]
    simp
  · intro j
    show Matrix.vecMul
        (fun k => ext.computeBasisFromAxis 2
            (pairs.getD ((2 * i.1 + 1) / 2) default).nhat_BA_W k
            (if (2 * i.1 + 1) % 2 = 0 then (0 : Fin 3) else 1))
        (ext.pointsJacobian ctx
            (pl.bodyIndexOf (pairs.getD ((2 * i.1 + 1) / 2) default).id_B)
            (pairs.getD ((2 * i.1 + 1) / 2) default).p_WCb
          - ext.pointsJacobian ctx
            (pl.bodyIndexOf (pairs.getD ((2 * i.1 + 1) / 2) default).id_A)
            (pairs.getD ((2 * i.1 + 1) / 2) default).p_WCa) j
      = _
    have h2 : (2 * i.1 + 1) % 2 = 1 := by omega
    rw [hpair1, h2]
    simp

end DrakeMultibodyPlant
